import Mathlib

/-!
Shallow embedding of `src/firmware/src/main.rs`: a staged startup sequencer
for a Wi-Fi microcontroller.  The program runs three phases in order —
`start_wifi` (Connectivity Establisher), `update_time` (Clock Synchronizer),
`display_url` (Resource Fetcher) — inside a `block_on` driven by `main`.

External collaborators (the radio driver, the SNTP client, the wall clock
formatter, the HTTP transport, and the board-setup calls) are opaque services:
each is modelled by an environment record holding the result every call of the
run would return.  Rust `Result` values are `Except String`; a computation that
can also abort the process (Rust `panic!` via `.expect`/`.unwrap`) produces an
`Outcome`, which separates an error returned to the caller from a panic.
-/

namespace Firmware

/-- Result of running a piece of the program: normal value, error returned to
the caller (Rust `Err` propagated by `?`), or process abort (Rust panic from
`.expect` / `.unwrap`). -/
inductive Outcome (α : Type) where
  | ok (a : α)
  | err (msg : String)
  | panicked (msg : String)
deriving DecidableEq, Repr

/-- True exactly when the outcome is an error value returned to the caller. -/
def Outcome.isErr {α : Type} : Outcome α → Bool
  | .err _ => true
  | _ => false

/-- True exactly when the outcome is a normal value. -/
def Outcome.isOk {α : Type} : Outcome α → Bool
  | .ok _ => true
  | _ => false

/-- Rust `Result::expect(msg)`: `Ok` passes through, `Err e` panics with the
expect message followed by the error (`panic` prints `msg ++ ": " ++ e`). -/
def expectOutcome {α : Type} (r : Except String α) (msg : String) : Outcome α :=
  match r with
  | .ok a => .ok a
  | .error e => .panicked (msg ++ ": " ++ e)

/-- Sync status exposed by the SNTP collaborator
(`esp_idf_svc::sntp::SyncStatus`). -/
inductive SyncStatus where
  | reset
  | inProgress
  | completed
deriving DecidableEq, Repr

/-- Environment of one `update_time` run: the result of constructing the SNTP
client (`EspSntp::new`), the status returned by the k-th call of
`get_sync_status` (k = 0, 1, ...), and the result `format_time()` would
return after the loop exits. -/
structure SntpEnv where
  newResult : Except String Unit
  status : Nat → SyncStatus
  formatResult : Except String String

/-- Observable result of one `update_time` run: its outcome, the number of
one-second `tokio::time::sleep` suspensions performed by the poll loop, and
the `log::info` lines emitted. -/
structure TimeRun where
  outcome : Outcome Unit
  sleeps : Nat
  logs : List String
deriving DecidableEq, Repr

/-- The poll loop of `update_time`:
`while client.get_sync_status() != SyncStatus::Completed { sleep(1s) }`.
`pollSleeps status fuel i` polls statuses `i, i+1, ...`; it returns the number
of sleeps performed before `completed` is observed, or `none` if `completed`
does not occur within `fuel` polls (the loop is still running). -/
def pollSleeps (status : Nat → SyncStatus) : Nat → Nat → Option Nat
  | 0, _ => none
  | fuel + 1, i => if status i = .completed then some i else pollSleeps status fuel (i + 1)

/-- Embeds `update_time` from the source: construct the SNTP client (`?` on failure),
poll the sync status sleeping one second between polls until `Completed`, then
log the formatted time — `format_time()?` propagates a formatting error.
`fuel` bounds the number of polls we unroll; `none` means the poll loop has
not terminated within `fuel` polls. -/
def update_time (env : SntpEnv) (fuel : Nat) : Option TimeRun :=
  match env.newResult with
  | .error e => some ⟨.err e, 0, []⟩
  | .ok () =>
    match pollSleeps env.status fuel 0 with
    | none => none
    | some n =>
      match env.formatResult with
      | .error e => some ⟨.err e, n, []⟩
      | .ok t => some ⟨.ok (), n, ["ntp syncing completed, current time: " ++ t]⟩

/-- The radio/network collaborator of `start_wifi`
(`esp_idf_svc::wifi::AsyncWifi<EspWifi>`): the result each of its four
operations would return this run, and the interface DNS addresses read on the
success path.  `get_dns` / `get_secondary_dns` return plain values, not
results, so the DNS fields are total reads. -/
structure Radio where
  setConfigurationResult : Except String Unit
  startResult : Except String Unit
  connectResult : Except String Unit
  waitNetifUpResult : Except String Unit
  dns : String
  secondaryDns : String

/-- The four radio operations `start_wifi` can invoke, in source order. -/
inductive WifiStep where
  | setConfiguration
  | start
  | connect
  | waitNetifUp
deriving DecidableEq, Repr

/-- Observable result of one `start_wifi` run: its outcome, the radio
operations invoked in order, and the `log::info` lines emitted. -/
structure WifiRun where
  outcome : Outcome Unit
  invoked : List WifiStep
  logs : List String
deriving DecidableEq, Repr

/-- Embeds `heapless::String::<CAP>::try_from(&str)`: succeeds, keeping the text,
exactly when the UTF-8 byte length fits the capacity. -/
def heaplessTryFrom (cap : Nat) (s : String) : Option String :=
  if s.utf8ByteSize ≤ cap then some s else none

/-- Embeds `str::parse::<heapless::String<CAP>>()` (the `FromStr` impl): same
capacity check as `try_from`. -/
def heaplessParse (cap : Nat) (s : String) : Option String :=
  heaplessTryFrom cap s

/-- Embeds `start_wifi` from the source: convert the SSID into a `heapless::String<32>`
and the passphrase into a `heapless::String<64>` (`.expect("invalid ssid")` /
`.expect("invalid password")` panic on failure; the `TryFrom` error type is
`()`, printed `()`), build the client configuration (`ssid.parse().unwrap()` /
`password.parse().unwrap()`), then `set_configuration(..)?`,
`start().await.context("wifi couldn't start")?`,
`connect().await.context("wifi couldn't connect")?`,
`wait_netif_up().await.context("wifi netif_up failed")?`, and finally log the
interface nameservers. -/
def start_wifi (ssidStr passwordStr : String) (radio : Radio) : WifiRun :=
  match heaplessTryFrom 32 ssidStr with
  | none => ⟨.panicked "invalid ssid: ()", [], []⟩
  | some ssid =>
    match heaplessTryFrom 64 passwordStr with
    | none => ⟨.panicked "invalid password: ()", [], []⟩
    | some password =>
      match heaplessParse 32 ssid with
      | none => ⟨.panicked "called Result::unwrap() on an Err value: ()", [], []⟩
      | some _ =>
        match heaplessParse 64 password with
        | none => ⟨.panicked "called Result::unwrap() on an Err value: ()", [], []⟩
        | some _ =>
          match radio.setConfigurationResult with
          | .error e => ⟨.err e, [.setConfiguration], []⟩
          | .ok () =>
            match radio.startResult with
            | .error e =>
                ⟨.err ("wifi couldn't start: " ++ e), [.setConfiguration, .start], []⟩
            | .ok () =>
              match radio.connectResult with
              | .error e =>
                  ⟨.err ("wifi couldn't connect: " ++ e),
                   [.setConfiguration, .start, .connect], []⟩
              | .ok () =>
                match radio.waitNetifUpResult with
                | .error e =>
                    ⟨.err ("wifi netif_up failed: " ++ e),
                     [.setConfiguration, .start, .connect, .waitNetifUp], []⟩
                | .ok () =>
                    ⟨.ok (), [.setConfiguration, .start, .connect, .waitNetifUp],
                     ["nameservers " ++ radio.dns ++ ", " ++ radio.secondaryDns]⟩

/-- Environment of one `display_url` run: the result of
`reqwest::get("http://example.com").await` and, when the request succeeds, the
result of `.text().await` (the response body). -/
structure HttpEnv where
  getResult : Except String Unit
  textResult : Except String String

/-- Embeds `display_url` from the source: perform the request, materialize the body,
`log::info!` exactly the body string.  Returns the outcome and the emitted log
lines. -/
def display_url (env : HttpEnv) : Outcome Unit × List String :=
  match env.getResult with
  | .error e => (.err e, [])
  | .ok () =>
    match env.textResult with
    | .error e => (.err e, [])
    | .ok body => (.ok (), [body])

/-- Environment of one whole run of `main`: the results of the board-setup
calls in source order (`esp_vfs_eventfd_register` wrapped in `esp_nofail!`,
which aborts on failure; `Peripherals::take()?`; `EspSystemEventLoop::take()?`;
`EspDefaultNvsPartition::take()?`; `EspTimerService::new()?`;
`EspWifi::new(..).expect("failed to get esp_wifi")`;
`AsyncWifi::wrap(..).expect("failed to wrap wifi")`;
`tokio...build()?`), the build-time credentials, and the three phase
collaborators. -/
structure Env where
  eventfdResult : Except String Unit
  peripheralsResult : Except String Unit
  sysLoopResult : Except String Unit
  nvsResult : Except String Unit
  timerServiceResult : Except String Unit
  espWifiNewResult : Except String Unit
  wrapResult : Except String Unit
  runtimeBuildResult : Except String Unit
  ssid : String
  password : String
  radio : Radio
  sntp : SntpEnv
  http : HttpEnv

/-- Observable result of one run of `main`: its outcome, each phase's outcome
(`none` when the phase was never invoked), and the `log::info` lines emitted
by the phases plus the final `complete` line. -/
structure MainRun where
  outcome : Outcome Unit
  wifiPhase : Option (Outcome Unit)
  timePhase : Option (Outcome Unit)
  fetchPhase : Option (Outcome Unit)
  logs : List String
deriving DecidableEq, Repr

/-- The board-setup part of `main`, before the async block: `esp_nofail!`
aborts the process on failure, the `take`/`new`/`build` calls propagate with
`?`, and the two wifi-handle constructions panic via `.expect`. -/
def setup (env : Env) : Outcome Unit :=
  match env.eventfdResult with
  | .error e => .panicked e
  | .ok () =>
    match env.peripheralsResult with
    | .error e => .err e
    | .ok () =>
      match env.sysLoopResult with
      | .error e => .err e
      | .ok () =>
        match env.nvsResult with
        | .error e => .err e
        | .ok () =>
          match env.timerServiceResult with
          | .error e => .err e
          | .ok () =>
            match expectOutcome env.espWifiNewResult "failed to get esp_wifi" with
            | .panicked m => .panicked m
            | .err m => .err m
            | .ok _ =>
              match expectOutcome env.wrapResult "failed to wrap wifi" with
              | .panicked m => .panicked m
              | .err m => .err m
              | .ok _ =>
                match env.runtimeBuildResult with
                | .error e => .err e
                | .ok () => .ok ()

/-- Embeds `main` from the source: run `setup`, then inside `block_on` run
`start_wifi(..).await.expect("couldn't start wifi")`,
`update_time().await.expect("couldn't update time")`,
`display_url().await.expect("couldn't download file")` in that order, log
`complete`, return `Ok(())`.  Each phase's `Err` is turned into a panic by
`.expect`; a panic inside a phase aborts directly.  `fuel` bounds the SNTP
poll loop; `none` means the run is still inside that loop. -/
def mainRun (env : Env) (fuel : Nat) : Option MainRun :=
  match setup env with
  | .panicked m => some ⟨.panicked m, none, none, none, []⟩
  | .err m => some ⟨.err m, none, none, none, []⟩
  | .ok () =>
    let w := start_wifi env.ssid env.password env.radio
    match w.outcome with
    | .panicked m => some ⟨.panicked m, some (.panicked m), none, none, w.logs⟩
    | .err e =>
        some ⟨.panicked ("couldn't start wifi: " ++ e), some (.err e), none, none, w.logs⟩
    | .ok () =>
      match update_time env.sntp fuel with
      | none => none
      | some t =>
        match t.outcome with
        | .panicked m =>
            some ⟨.panicked m, some (.ok ()), some (.panicked m), none, w.logs ++ t.logs⟩
        | .err e =>
            some ⟨.panicked ("couldn't update time: " ++ e), some (.ok ()), some (.err e),
                  none, w.logs ++ t.logs⟩
        | .ok () =>
          let f := display_url env.http
          match f.1 with
          | .panicked m =>
              some ⟨.panicked m, some (.ok ()), some (.ok ()), some (.panicked m),
                    w.logs ++ t.logs ++ f.2⟩
          | .err e =>
              some ⟨.panicked ("couldn't download file: " ++ e), some (.ok ()),
                    some (.ok ()), some (.err e), w.logs ++ t.logs ++ f.2⟩
          | .ok () =>
              some ⟨.ok (), some (.ok ()), some (.ok ()), some (.ok ()),
                    w.logs ++ t.logs ++ f.2 ++ ["complete"]⟩

/-! Concrete collaborator fixtures used to instantiate the theorems below. -/

/-- Radio double whose four operations all succeed. -/
def radioAllOk : Radio := ⟨.ok (), .ok (), .ok (), .ok (), "10.0.0.1", "10.0.0.2"⟩

/-- Radio double whose `set_configuration` fails; the collaborator's own error
text happens to read like a connect-step failure. -/
def radioCfgFail : Radio :=
  ⟨.error "wifi couldn't connect: x", .ok (), .ok (), .ok (), "d1", "d2"⟩

/-- Radio double whose `connect` fails with the raw error `x`. -/
def radioConnFail : Radio := ⟨.ok (), .ok (), .error "x", .ok (), "d1", "d2"⟩

/-- An SSID of 33 ASCII bytes: one byte over the 32-byte bound. -/
def ssid33 : String := "aaaaaaaaaaaaaaaaaaaaaaaaaaaaaaaaa"

/-- A passphrase of 65 ASCII bytes: one byte over the 64-byte bound. -/
def password65 : String :=
  "bbbbbbbbbbbbbbbbbbbbbbbbbbbbbbbbbbbbbbbbbbbbbbbbbbbbbbbbbbbbbbbbb"

/-- SNTP double: sync completes on the first poll, but `format_time` fails. -/
def sntpFmtFail : SntpEnv :=
  ⟨.ok (), fun _ => SyncStatus.completed, .error "invalid format description"⟩

/-- SNTP double: `InProgress` for the first two polls, then `Completed`. -/
def sntpTwoPolls : SntpEnv :=
  ⟨.ok (), fun i => if i < 2 then SyncStatus.inProgress else SyncStatus.completed,
   .ok "05-Oct-2025 12:00:00"⟩

/-- SNTP double that never reports `Completed`. -/
def sntpNeverDone : SntpEnv := ⟨.ok (), fun _ => SyncStatus.inProgress, .ok "t"⟩

/-- SNTP double: sync completes immediately and formatting succeeds. -/
def sntpAllOk : SntpEnv :=
  ⟨.ok (), fun _ => SyncStatus.completed, .ok "05-Oct-2025 12:00:00"⟩

/-- HTTP double returning the body `hello`. -/
def httpHello : HttpEnv := ⟨.ok (), .ok "hello"⟩

/-- Whole-run environment in which every collaborator succeeds. -/
def envAllOk : Env :=
  ⟨.ok (), .ok (), .ok (), .ok (), .ok (), .ok (), .ok (), .ok (),
   "net", "pw", radioAllOk, sntpAllOk, httpHello⟩

/-- Whole-run environment in which the radio's `connect` fails with `boom`. -/
def envConnFail : Env :=
  ⟨.ok (), .ok (), .ok (), .ok (), .ok (), .ok (), .ok (), .ok (),
   "net", "pw", ⟨.ok (), .ok (), .error "boom", .ok (), "d1", "d2"⟩,
   sntpAllOk, httpHello⟩

/-- The run record produced by `mainRun envAllOk 1`. -/
def mainRunAllOk : MainRun :=
  ⟨.ok (), some (.ok ()), some (.ok ()), some (.ok ()),
   ["nameservers 10.0.0.1, 10.0.0.2",
    "ntp syncing completed, current time: 05-Oct-2025 12:00:00",
    "hello", "complete"]⟩

/-! Helper lemmas about the poll loop. -/

/-- If the first `completed` status is at index `n`, the poll loop started at
`i ≤ n` returns `n` whenever the fuel reaches past `n`. -/
theorem pollSleeps_first_completed (status : Nat → SyncStatus) (n : Nat)
    (hpre : ∀ i < n, status i ≠ .completed) (hn : status n = .completed) :
    ∀ fuel i, i ≤ n → n < i + fuel → pollSleeps status fuel i = some n := by
  intro fuel
  induction fuel with
  | zero => intro i hi hlt; omega
  | succ fuel ih =>
    intro i hi hlt
    by_cases hc : status i = .completed
    · have hin : i = n := by
        rcases Nat.lt_or_ge i n with h | h
        · exact absurd hc (hpre i h)
        · omega
      subst hin
      simp [pollSleeps, hc]
    · have hin : i < n := by
        rcases Nat.lt_or_ge i n with h | h
        · exact h
        · have heq : i = n := by omega
          subst heq; exact absurd hn hc
      simp only [pollSleeps, if_neg hc]
      exact ih (i + 1) (by omega) (by omega)

/-- If `completed` never occurs, the poll loop exhausts any fuel. -/
theorem pollSleeps_never_completed (status : Nat → SyncStatus)
    (h : ∀ i, status i ≠ .completed) :
    ∀ fuel i, pollSleeps status fuel i = none := by
  intro fuel
  induction fuel with
  | zero => intro i; rfl
  | succ fuel ih =>
    intro i
    simp only [pollSleeps, if_neg (h i)]
    exact ih (i + 1)

/-- Helper: in every completed run of `main`, a later phase is invoked only
when the previous phase was invoked and reported success. -/
theorem mainRun_phases_sequenced (env : Env) (fuel : Nat) (r : MainRun)
    (h : mainRun env fuel = some r) :
    (r.timePhase ≠ none → r.wifiPhase = some (.ok ())) ∧
    (r.fetchPhase ≠ none → r.timePhase = some (.ok ())) := by
  simp only [mainRun] at h
  split at h
  · injection h with h; subst h; simp
  · injection h with h; subst h; simp
  · split at h
    · injection h with h; subst h; simp
    · injection h with h; subst h; simp
    · split at h
      · exact absurd h (by simp)
      · split at h
        · injection h with h; subst h; simp
        · injection h with h; subst h; simp
        · split at h
          · injection h with h; subst h; simp
          · injection h with h; subst h; simp
          · injection h with h; subst h; simp

/-! Claim theorems. -/

/-- C5: the Clock Synchronizer's poll loop returns only after observing
`Completed`; when the collaborator reports a status other than `Completed` for
the first `n` polls and `Completed` on poll `n+1`, `update_time` returns after
exactly `n` one-second sleep suspensions. -/
theorem update_time_exact_sleeps (env : SntpEnv) (n fuel : Nat)
    (hnew : env.newResult = .ok ())
    (hpre : ∀ i < n, env.status i ≠ .completed)
    (hn : env.status n = .completed)
    (hfuel : n < fuel) :
    ∃ r, update_time env fuel = some r ∧ r.sleeps = n := by
  have hp : pollSleeps env.status fuel 0 = some n :=
    pollSleeps_first_completed env.status n hpre hn fuel 0 (Nat.zero_le n) (by omega)
  cases hf : env.formatResult with
  | error e =>
      exact ⟨⟨.err e, n, []⟩, by simp [update_time, hnew, hp, hf], rfl⟩
  | ok t =>
      exact ⟨⟨.ok (), n, ["ntp syncing completed, current time: " ++ t]⟩,
             by simp [update_time, hnew, hp, hf], rfl⟩

/-- Witness for C5: with `InProgress` on the first two polls and `Completed`
on the third, `update_time` returns after exactly two sleeps. -/
theorem update_time_exact_sleeps_witness :
    ∃ r, update_time sntpTwoPolls 3 = some r ∧ r.sleeps = 2 :=
  update_time_exact_sleeps sntpTwoPolls 2 3 rfl (by decide) (by decide) (by decide)

/-- C6: the poll loop has no failure exit and no iteration bound: when the
collaborator never reports `Completed`, `update_time` does not return within
any number of polls. -/
theorem update_time_never_completed_never_returns (env : SntpEnv) (fuel : Nat)
    (hnew : env.newResult = .ok ())
    (h : ∀ i, env.status i ≠ .completed) :
    update_time env fuel = none := by
  simp [update_time, hnew, pollSleeps_never_completed env.status h fuel 0]

/-- Witness for C6: a collaborator stuck at `InProgress` keeps `update_time`
in the loop after seven polls. -/
theorem update_time_never_completed_never_returns_witness :
    update_time sntpNeverDone 7 = none :=
  update_time_never_completed_never_returns sntpNeverDone 7 rfl
    (fun i => by simp [sntpNeverDone])

/-- C1 (divergence): when `format_time` fails, `update_time` propagates the
error through `format_time()?` — the phase aborts with `Err`, emits no log
line, and substitutes no placeholder. -/
theorem update_time_format_failure_aborts :
    update_time sntpFmtFail 1 = some ⟨.err "invalid format description", 0, []⟩ := rfl

/-- C7: the Resource Fetcher emits exactly the body string returned by the
transport, character for character, for every body. -/
theorem display_url_emits_body_exactly (body : String) :
    display_url ⟨.ok (), .ok body⟩ = (.ok (), [body]) := rfl

/-- C2 (counterexample): an SSID one byte over the bound makes `start_wifi`
panic (Rust `.expect`), naming the field but not returning an error value —
the failure is not a returned `ConfigError`; no radio operation is invoked. -/
theorem start_wifi_oversized_ssid_panics_not_err :
    (start_wifi ssid33 "pw" radioAllOk).outcome = .panicked "invalid ssid: ()" ∧
    (start_wifi ssid33 "pw" radioAllOk).outcome.isErr = false ∧
    (start_wifi ssid33 "pw" radioAllOk).invoked = [] := by decide

/-- C2 (amended): on an oversized SSID or passphrase, `start_wifi` aborts by
panic with a message naming the offending field, before any radio operation is
invoked and with no log emitted. -/
theorem start_wifi_oversized_creds_panic_before_radio (s p : String) (radio : Radio) :
    (32 < s.utf8ByteSize →
      start_wifi s p radio = ⟨.panicked "invalid ssid: ()", [], []⟩) ∧
    (s.utf8ByteSize ≤ 32 → 64 < p.utf8ByteSize →
      start_wifi s p radio = ⟨.panicked "invalid password: ()", [], []⟩) := by
  constructor
  · intro h
    have hns : ¬ s.utf8ByteSize ≤ 32 := by omega
    simp [start_wifi, heaplessTryFrom, hns]
  · intro h1 h2
    have hnp : ¬ p.utf8ByteSize ≤ 64 := by omega
    simp [start_wifi, heaplessTryFrom, h1, hnp]

/-- Witness for the amended C2, at a 33-byte SSID and a 65-byte passphrase. -/
theorem start_wifi_oversized_creds_panic_before_radio_witness :
    start_wifi ssid33 "pw" radioAllOk = ⟨.panicked "invalid ssid: ()", [], []⟩ ∧
    start_wifi "net" password65 radioAllOk = ⟨.panicked "invalid password: ()", [], []⟩ :=
  ⟨(start_wifi_oversized_creds_panic_before_radio ssid33 "pw" radioAllOk).1 (by decide),
   (start_wifi_oversized_creds_panic_before_radio "net" password65 radioAllOk).2
     (by decide) (by decide)⟩

/-- C3 (counterexample): a failure of `set_configuration` is propagated with
no step-specific label (`set_configuration(..)?` adds no context), so it can
be byte-identical to a labelled `connect`-step failure: the two runs below
fail at different steps yet propagate the same error. -/
theorem start_wifi_configure_failure_carries_no_step_label :
    (start_wifi "net" "pw" radioCfgFail).invoked = [WifiStep.setConfiguration] ∧
    (start_wifi "net" "pw" radioConnFail).invoked =
      [WifiStep.setConfiguration, WifiStep.start, WifiStep.connect] ∧
    (start_wifi "net" "pw" radioCfgFail).outcome =
      (start_wifi "net" "pw" radioConnFail).outcome ∧
    (start_wifi "net" "pw" radioCfgFail).outcome = .err "wifi couldn't connect: x" := by
  decide

/-- C3 (amended): the radio operations run in the fixed order configure →
start → connect → wait-interface-up; a failure at step `k` invokes no later
step and no step twice, and is propagated upward — with its step-specific
label for `start`, `connect` and `wait_netif_up`, and unlabelled (the
collaborator's own error) for `set_configuration`. -/
theorem start_wifi_step_order_no_retry (s p e : String) (radio : Radio)
    (hs : s.utf8ByteSize ≤ 32) (hp : p.utf8ByteSize ≤ 64) :
    (radio.setConfigurationResult = .error e →
      start_wifi s p radio = ⟨.err e, [.setConfiguration], []⟩) ∧
    (radio.setConfigurationResult = .ok () → radio.startResult = .error e →
      start_wifi s p radio =
        ⟨.err ("wifi couldn't start: " ++ e), [.setConfiguration, .start], []⟩) ∧
    (radio.setConfigurationResult = .ok () → radio.startResult = .ok () →
     radio.connectResult = .error e →
      start_wifi s p radio =
        ⟨.err ("wifi couldn't connect: " ++ e),
         [.setConfiguration, .start, .connect], []⟩) ∧
    (radio.setConfigurationResult = .ok () → radio.startResult = .ok () →
     radio.connectResult = .ok () → radio.waitNetifUpResult = .error e →
      start_wifi s p radio =
        ⟨.err ("wifi netif_up failed: " ++ e),
         [.setConfiguration, .start, .connect, .waitNetifUp], []⟩) := by
  refine ⟨fun h1 => ?_, fun h1 h2 => ?_, fun h1 h2 h3 => ?_, fun h1 h2 h3 h4 => ?_⟩ <;>
    simp_all [start_wifi, heaplessTryFrom, heaplessParse]

/-- Witness for the amended C3, at a radio double failing at `connect`. -/
theorem start_wifi_step_order_no_retry_witness :
    start_wifi "net" "pw" radioConnFail =
      ⟨.err ("wifi couldn't connect: " ++ "x"),
       [.setConfiguration, .start, .connect], []⟩ :=
  (start_wifi_step_order_no_retry "net" "pw" "x" radioConnFail
    (by decide) (by decide)).2.2.1 rfl rfl rfl

/-- C8: whenever both credentials convert into their bounded strings, the
subsequent `parse` of those bounded strings succeeds, so the `unwrap` calls in
the configuration build are unreachable: `start_wifi` never produces the
unwrap panic under that precondition. -/
theorem bounded_creds_parse_never_fails (s p bs bp : String) (radio : Radio)
    (hs : heaplessTryFrom 32 s = some bs) (hp : heaplessTryFrom 64 p = some bp) :
    (heaplessParse 32 bs).isSome ∧ (heaplessParse 64 bp).isSome ∧
    (start_wifi s p radio).outcome ≠
      .panicked "called Result::unwrap() on an Err value: ()" := by
  have hs' : s.utf8ByteSize ≤ 32 ∧ bs = s := by
    by_cases h : s.utf8ByteSize ≤ 32
    · simp only [heaplessTryFrom, if_pos h, Option.some.injEq] at hs
      exact ⟨h, hs.symm⟩
    · simp [heaplessTryFrom, h] at hs
  have hp' : p.utf8ByteSize ≤ 64 ∧ bp = p := by
    by_cases h : p.utf8ByteSize ≤ 64
    · simp only [heaplessTryFrom, if_pos h, Option.some.injEq] at hp
      exact ⟨h, hp.symm⟩
    · simp [heaplessTryFrom, h] at hp
  obtain ⟨h1, rfl⟩ := hs'
  obtain ⟨h2, rfl⟩ := hp'
  refine ⟨by simp [heaplessParse, heaplessTryFrom, h1],
          by simp [heaplessParse, heaplessTryFrom, h2], ?_⟩
  rcases radio with ⟨rc, rs, rcon, rw, d1, d2⟩
  rcases rc with e1 | ⟨⟩ <;> rcases rs with e2 | ⟨⟩ <;> rcases rcon with e3 | ⟨⟩ <;>
    rcases rw with e4 | ⟨⟩ <;>
    simp [start_wifi, heaplessTryFrom, heaplessParse, h1, h2]

/-- Witness for C8 at in-bound credentials. -/
theorem bounded_creds_parse_never_fails_witness :
    (heaplessParse 32 "net").isSome ∧ (heaplessParse 64 "pw").isSome ∧
    (start_wifi "net" "pw" radioAllOk).outcome ≠
      .panicked "called Result::unwrap() on an Err value: ()" :=
  bounded_creds_parse_never_fails "net" "pw" "net" "pw" radioAllOk
    (by decide) (by decide)

/-- C9: once `wait_netif_up` succeeds, the DNS reads are total value reads, the
informational nameserver log line is always emitted, and the phase always
returns success — it cannot fail after interface-up. -/
theorem start_wifi_success_always_logs_dns (s p : String) (radio : Radio)
    (hs : s.utf8ByteSize ≤ 32) (hp : p.utf8ByteSize ≤ 64)
    (hc : radio.setConfigurationResult = .ok ())
    (hst : radio.startResult = .ok ())
    (hcn : radio.connectResult = .ok ())
    (hw : radio.waitNetifUpResult = .ok ()) :
    start_wifi s p radio =
      ⟨.ok (), [.setConfiguration, .start, .connect, .waitNetifUp],
       ["nameservers " ++ radio.dns ++ ", " ++ radio.secondaryDns]⟩ := by
  simp [start_wifi, heaplessTryFrom, heaplessParse, hs, hp, hc, hst, hcn, hw]

/-- Witness for C9 at an all-success radio double. -/
theorem start_wifi_success_always_logs_dns_witness :
    start_wifi "net" "pw" radioAllOk =
      ⟨.ok (), [.setConfiguration, .start, .connect, .waitNetifUp],
       ["nameservers " ++ "10.0.0.1" ++ ", " ++ "10.0.0.2"]⟩ :=
  start_wifi_success_always_logs_dns "net" "pw" radioAllOk
    (by decide) (by decide) rfl rfl rfl rfl

/-- C4: the sequencer runs the phases strictly in order — a later phase begins
only when the previous one reported success (first conjunct, over every run) —
and when the radio's `connect` fails the run terminates failed (a panic from
the `expect` in the async block) with a message containing `couldn't connect`
(shown by the explicit decomposition in the last conjunct) while the time-sync
and HTTP phases are never invoked (`timePhase` and `fetchPhase` are `none`). -/
theorem main_connect_failure_fails_before_sync_fetch (env : Env) (fuel : Nat) (e : String)
    (h1 : env.eventfdResult = .ok ()) (h2 : env.peripheralsResult = .ok ())
    (h3 : env.sysLoopResult = .ok ()) (h4 : env.nvsResult = .ok ())
    (h5 : env.timerServiceResult = .ok ()) (h6 : env.espWifiNewResult = .ok ())
    (h7 : env.wrapResult = .ok ()) (h8 : env.runtimeBuildResult = .ok ())
    (hs : env.ssid.utf8ByteSize ≤ 32) (hp : env.password.utf8ByteSize ≤ 64)
    (hc : env.radio.setConfigurationResult = .ok ())
    (hst : env.radio.startResult = .ok ())
    (hcn : env.radio.connectResult = .error e) :
    (∀ env2 fuel2 r2, mainRun env2 fuel2 = some r2 →
      (r2.timePhase ≠ none → r2.wifiPhase = some (.ok ())) ∧
      (r2.fetchPhase ≠ none → r2.timePhase = some (.ok ()))) ∧
    mainRun env fuel =
      some ⟨.panicked ("couldn't start wifi: " ++ ("wifi couldn't connect: " ++ e)),
            some (.err ("wifi couldn't connect: " ++ e)), none, none, []⟩ ∧
    "couldn't start wifi: " ++ ("wifi couldn't connect: " ++ e) =
      "couldn't start wifi: wifi " ++ ("couldn't connect" ++ (": " ++ e)) := by
  refine ⟨fun env2 fuel2 r2 h2 => mainRun_phases_sequenced env2 fuel2 r2 h2, ?_, ?_⟩
  · have hsetup : setup env = .ok () := by
      simp [setup, expectOutcome, h1, h2, h3, h4, h5, h6, h7, h8]
    have hw : start_wifi env.ssid env.password env.radio =
        ⟨.err ("wifi couldn't connect: " ++ e),
         [.setConfiguration, .start, .connect], []⟩ := by
      simp [start_wifi, heaplessTryFrom, heaplessParse, hs, hp, hc, hst, hcn]
    simp [mainRun, hsetup, hw]
  · have hlit : ("couldn't start wifi: " ++ "wifi couldn't connect: " : String) =
        "couldn't start wifi: wifi " ++ "couldn't connect" ++ ": " := by decide
    calc "couldn't start wifi: " ++ ("wifi couldn't connect: " ++ e)
        = "couldn't start wifi: " ++ "wifi couldn't connect: " ++ e := by
          rw [String.append_assoc]
      _ = "couldn't start wifi: wifi " ++ "couldn't connect" ++ ": " ++ e := by
          rw [hlit]
      _ = "couldn't start wifi: wifi " ++ ("couldn't connect" ++ (": " ++ e)) := by
          rw [String.append_assoc, String.append_assoc]

/-- Witness for C4 at a radio double whose `connect` fails with `boom`. -/
theorem main_connect_failure_fails_before_sync_fetch_witness :
    mainRun envConnFail 1 =
      some ⟨.panicked ("couldn't start wifi: " ++ ("wifi couldn't connect: " ++ "boom")),
            some (.err ("wifi couldn't connect: " ++ "boom")), none, none, []⟩ ∧
    "couldn't start wifi: " ++ ("wifi couldn't connect: " ++ "boom") =
      "couldn't start wifi: wifi " ++ ("couldn't connect" ++ (": " ++ "boom")) :=
  (main_connect_failure_fails_before_sync_fetch envConnFail 1 "boom"
    rfl rfl rfl rfl rfl rfl rfl rfl (by decide) (by decide) rfl rfl rfl).2

/-- C10: whenever `main` completes, it returns `Ok(())` exactly when all three
phases succeeded, and a failure of any invoked phase makes the run end in a
panic (the `expect` calls), never in an `Err` returned through `main`. -/
theorem main_ok_iff_all_phases_ok (env : Env) (fuel : Nat) (r : MainRun)
    (h : mainRun env fuel = some r) :
    (r.outcome = .ok () ↔
      r.wifiPhase = some (.ok ()) ∧ r.timePhase = some (.ok ()) ∧
      r.fetchPhase = some (.ok ())) ∧
    (∀ o, r.wifiPhase = some o → o ≠ .ok () → ∃ m, r.outcome = .panicked m) ∧
    (∀ o, r.timePhase = some o → o ≠ .ok () → ∃ m, r.outcome = .panicked m) ∧
    (∀ o, r.fetchPhase = some o → o ≠ .ok () → ∃ m, r.outcome = .panicked m) := by
  simp only [mainRun] at h
  split at h
  · injection h with h; subst h; simp
  · injection h with h; subst h; simp
  · split at h
    · injection h with h; subst h; simp
    · injection h with h; subst h; simp
    · split at h
      · exact absurd h (by simp)
      · split at h
        · injection h with h; subst h; simp
        · injection h with h; subst h; simp
        · split at h
          · injection h with h; subst h; simp
          · injection h with h; subst h; simp
          · injection h with h; subst h; simp

/-- Witness for C10 at the all-success environment. -/
theorem main_ok_iff_all_phases_ok_witness :
    mainRunAllOk.outcome = .ok () ↔
      mainRunAllOk.wifiPhase = some (.ok ()) ∧ mainRunAllOk.timePhase = some (.ok ()) ∧
      mainRunAllOk.fetchPhase = some (.ok ()) :=
  (main_ok_iff_all_phases_ok envAllOk 1 mainRunAllOk (by decide)).1

end Firmware
